import Mathlib

/-!
Verification of the Swing-AI golf-swing analysis core
(src/ai-microservice), shallowly embedded in Lean 4.

Python floats are modelled as rationals; Python `range(a, b)` objects are
modelled as pairs of natural numbers; fallible code returns `Except`.
-/

namespace SwingAI

/-- One MediaPipe pose landmark: normalized coordinates plus visibility
(cf. the dictionaries built in `_extract_pose_data`,
src/ai-microservice/services/golf_analyzer.py lines 224-230). -/
structure Landmark where
  x : ℚ
  y : ℚ
  z : ℚ
  visibility : ℚ
  deriving Repr, DecidableEq

/-- A detected frame: the ordered list of landmarks MediaPipe returned for
that frame (33 entries in practice). -/
abbrev Frame := List Landmark

/-- The pose_data dictionary built by `_extract_pose_data`
(golf_analyzer.py lines 199-241): per detected frame a landmark list, a
timestamp, and a confidence entry. -/
structure PoseData where
  landmarks : List Frame
  frame_timestamps : List ℚ
  confidence_scores : List ℚ
  deriving Repr, DecidableEq

/-- Visibility of landmark index 0 of a frame, as read by
`results.pose_landmarks.landmark[0].visibility` (line 234).  MediaPipe
always emits 33 landmarks, so the default for an empty frame is never
exercised by the modelled pipeline. -/
def firstVisibility (f : Frame) : ℚ :=
  match f with
  | [] => 0
  | l :: _ => l.visibility

/-- `_extract_pose_data` (lines 199-241), modelled from the point where
MediaPipe has produced a landmark list per detected frame: the three lists
are filled in lockstep, timestamps are frame index over fps, and the
confidence entry of a frame is the visibility of its landmark 0. -/
def extractPoseData (det : List Frame) (fps : ℚ) : PoseData :=
  { landmarks := det
    frame_timestamps := (List.range det.length).map (fun i => (i : ℚ) / fps)
    confidence_scores := det.map firstVisibility }

/-- A Python `range(a, b)` value, as the pair (start, stop). -/
abbrev IdxRange := Nat × Nat

/-- `len(range(a, b))` (for the ranges produced here, stop is never below
start, so truncated subtraction agrees with Python). -/
def rangeLen (r : IdxRange) : Nat := r.2 - r.1

/-- Membership of an index in a range. -/
def inRange (i : Nat) (r : IdxRange) : Prop := r.1 ≤ i ∧ i < r.2

instance (i : Nat) (r : IdxRange) : Decidable (inRange i r) := by
  unfold inRange; infer_instance

/-- The phases dictionary returned by `_analyze_swing_phases`
(golf_analyzer.py lines 250-257). -/
structure SwingPhases where
  address : IdxRange
  backswing : IdxRange
  downswing : IdxRange
  impact : IdxRange
  follow_through : IdxRange
  deriving Repr, DecidableEq

/-- `_analyze_swing_phases` (golf_analyzer.py lines 243-259): raises
ValueError below 10 frames, otherwise returns the fixed proportional
split computed with Python integer division. -/
def analyzeSwingPhases (pd : PoseData) : Except String SwingPhases :=
  let n := pd.landmarks.length
  if n < 10 then
    .error "Insufficient frames for swing analysis"
  else
    .ok { address := (0, n / 4)
          backswing := (n / 4, n / 2)
          downswing := (n / 2, 3 * n / 4)
          impact := (3 * n / 4, 4 * n / 5)
          follow_through := (4 * n / 5, n) }

/-- The SwingMetrics record (models/analysis.py lines 11-19). -/
structure SwingMetrics where
  backswing_angle : ℚ
  downswing_speed : ℚ
  follow_through : ℚ
  hip_rotation : ℚ
  shoulder_alignment : ℚ
  weight_transfer : ℚ
  tempo_ratio : ℚ
  deriving Repr, DecidableEq

/-- `_calculate_backswing_angle` (lines 297-310): reads two frames but
returns the clamped placeholder constant 45.0. -/
def calculateBackswingAngle (landmarks : List Frame) (r : IdxRange) : ℚ :=
  if rangeLen r < 2 then 0
  else
    let _startFrame := landmarks.getD r.1 []
    let _endFrame := landmarks.getD (r.2 - 1) []
    let angle : ℚ := 45
    max 0 (min 180 angle)

/-- `_calculate_downswing_speed` (lines 312-321): placeholder 15.0. -/
def calculateDownswingSpeed (_landmarks : List Frame) (r : IdxRange) : ℚ :=
  if rangeLen r < 2 then 0
  else
    let speed : ℚ := 15
    max 0 speed

/-- `_calculate_follow_through` (lines 323-331): placeholder 60.0. -/
def calculateFollowThrough (_landmarks : List Frame) (r : IdxRange) : ℚ :=
  if rangeLen r < 2 then 0
  else
    let angle : ℚ := 60
    max 0 (min 180 angle)

/-- `_calculate_hip_rotation` (lines 333-341): placeholder 75.0. -/
def calculateHipRotation (_landmarks : List Frame) (r : IdxRange) : ℚ :=
  if rangeLen r < 2 then 0
  else
    let angle : ℚ := 75
    max 0 (min 180 angle)

/-- `_calculate_shoulder_alignment` (lines 343-351): placeholder 68.0. -/
def calculateShoulderAlignment (_landmarks : List Frame) (r : IdxRange) : ℚ :=
  if rangeLen r < 1 then 0
  else
    let alignment : ℚ := 68
    max 0 (min 100 alignment)

/-- `_calculate_weight_transfer` (lines 353-358): placeholder 75.0 with no
frame-count guard. -/
def calculateWeightTransfer (_landmarks : List Frame) (_phases : SwingPhases) : ℚ :=
  let efficiency : ℚ := 75
  max 0 (min 100 efficiency)

/-- The final clamp of `_calculate_tempo_ratio` (line 369). -/
def tempoClamp (r : ℚ) : ℚ := max (0.5 : ℚ) (min 5.0 r)

/-- `_calculate_tempo_ratio` (lines 360-369): 1.0 below two timestamps,
otherwise the clamped placeholder constant 2.8. -/
def calculateTempoRatio (timestamps : List ℚ) (_phases : SwingPhases) : ℚ :=
  if timestamps.length < 2 then 1
  else tempoClamp 2.8

/-- `_calculate_swing_metrics` (golf_analyzer.py lines 261-295). -/
def calculateSwingMetrics (pd : PoseData) (phases : SwingPhases) : SwingMetrics :=
  { backswing_angle := calculateBackswingAngle pd.landmarks phases.backswing
    downswing_speed := calculateDownswingSpeed pd.landmarks phases.downswing
    follow_through := calculateFollowThrough pd.landmarks phases.follow_through
    hip_rotation := calculateHipRotation pd.landmarks phases.downswing
    shoulder_alignment := calculateShoulderAlignment pd.landmarks phases.address
    weight_transfer := calculateWeightTransfer pd.landmarks phases
    tempo_ratio := calculateTempoRatio pd.frame_timestamps phases }

/-- The SwingScores record (models/analysis.py lines 21-27). -/
structure SwingScores where
  form_score : ℚ
  tempo_score : ℚ
  power_score : ℚ
  accuracy_score : ℚ
  overall_score : ℚ
  deriving Repr, DecidableEq

/-- `_rule_based_form_score` (golf_analyzer.py lines 406-418): base 70,
three sequential +10 bonuses, capped at 100. -/
def ruleBasedFormScore (m : SwingMetrics) : ℚ :=
  let score : ℚ := 70
  let score := if m.shoulder_alignment > 80 then score + 10 else score
  let score := if m.hip_rotation > 70 then score + 10 else score
  let score := if m.weight_transfer > 80 then score + 10 else score
  min 100 score

/-- `_rule_based_tempo_score` (lines 420-430): +20 on the closed interval
[2.5, 3.5], else +10 on the closed interval [2.0, 4.0]. -/
def ruleBasedTempoScore (m : SwingMetrics) : ℚ :=
  let score : ℚ := 70
  let score :=
    if 2.5 ≤ m.tempo_ratio ∧ m.tempo_ratio ≤ 3.5 then score + 20
    else if 2.0 ≤ m.tempo_ratio ∧ m.tempo_ratio ≤ 4.0 then score + 10
    else score
  min 100 score

/-- `_rule_based_power_score` (lines 432-441). -/
def ruleBasedPowerScore (m : SwingMetrics) : ℚ :=
  let score : ℚ := 70
  let score := if m.downswing_speed > 20 then score + 15 else score
  let score := if m.hip_rotation > 80 then score + 15 else score
  min 100 score

/-- `_rule_based_accuracy_score` (lines 443-452). -/
def ruleBasedAccuracyScore (m : SwingMetrics) : ℚ :=
  let score : ℚ := 70
  let score := if m.shoulder_alignment > 85 then score + 15 else score
  let score := if m.weight_transfer > 85 then score + 15 else score
  min 100 score

/-- The four optional per-category model slots of GolfSwingAnalyzer
(golf_analyzer.py lines 37-40), each modelled as an optional scoring
function on the metric set. -/
structure Analyzer where
  form_model : Option (SwingMetrics → ℚ)
  tempo_model : Option (SwingMetrics → ℚ)
  power_model : Option (SwingMetrics → ℚ)
  accuracy_model : Option (SwingMetrics → ℚ)

/-- The analyzer state with no model loaded (the default: all four slots
are None until a pickle file is found). -/
def noModels : Analyzer := ⟨none, none, none, none⟩

/-- `_predict_form_score` (lines 454-459): currently returns the
rule-based score. -/
def predictFormScore (_A : Analyzer) (_pd : PoseData) (m : SwingMetrics) : ℚ :=
  ruleBasedFormScore m

/-- `_predict_tempo_score` (lines 461-464). -/
def predictTempoScore (_A : Analyzer) (_pd : PoseData) (m : SwingMetrics) : ℚ :=
  ruleBasedTempoScore m

/-- `_predict_power_score` (lines 466-469). -/
def predictPowerScore (_A : Analyzer) (_pd : PoseData) (m : SwingMetrics) : ℚ :=
  ruleBasedPowerScore m

/-- `_predict_accuracy_score` (lines 471-474). -/
def predictAccuracyScore (_A : Analyzer) (_pd : PoseData) (m : SwingMetrics) : ℚ :=
  ruleBasedAccuracyScore m

/-- `_generate_scores` (golf_analyzer.py lines 371-404): per category the
model branch or the rule-based branch, then overall as the mean of the
four. -/
def generateScores (A : Analyzer) (pd : PoseData) (m : SwingMetrics) : SwingScores :=
  let form_score :=
    match A.form_model with
    | some _ => predictFormScore A pd m
    | none => ruleBasedFormScore m
  let tempo_score :=
    match A.tempo_model with
    | some _ => predictTempoScore A pd m
    | none => ruleBasedTempoScore m
  let power_score :=
    match A.power_model with
    | some _ => predictPowerScore A pd m
    | none => ruleBasedPowerScore m
  let accuracy_score :=
    match A.accuracy_model with
    | some _ => predictAccuracyScore A pd m
    | none => ruleBasedAccuracyScore m
  let overall_score := (form_score + tempo_score + power_score + accuracy_score) / 4
  { form_score := form_score
    tempo_score := tempo_score
    power_score := power_score
    accuracy_score := accuracy_score
    overall_score := overall_score }

/-- The SwingRecommendations record (models/analysis.py lines 29-35). -/
structure SwingRecommendations where
  strengths : List String
  areas_for_improvement : List String
  specific_recommendations : List String
  practice_drills : List String
  priority_level : String
  deriving Repr, DecidableEq

/-- `_generate_recommendations` (golf_analyzer.py lines 476-532). -/
def generateRecommendations (scores : SwingScores) (_m : SwingMetrics) : SwingRecommendations :=
  let strengths :=
    (if scores.form_score > 85 then ["Excellent form fundamentals"] else []) ++
    (if scores.tempo_score > 85 then ["Good tempo control"] else []) ++
    (if scores.power_score > 85 then ["Strong power generation"] else []) ++
    (if scores.accuracy_score > 85 then ["Consistent accuracy"] else [])
  let areas_for_improvement :=
    (if scores.form_score < 80 then ["Form consistency"] else []) ++
    (if scores.tempo_score < 80 then ["Tempo control"] else []) ++
    (if scores.power_score < 80 then ["Power generation"] else []) ++
    (if scores.accuracy_score < 80 then ["Accuracy and consistency"] else [])
  let specific_recommendations :=
    (if scores.form_score < 80 then
      ["Focus on maintaining proper posture throughout swing"] else []) ++
    (if scores.tempo_score < 80 then
      ["Work on 3:1 backswing to downswing ratio"] else []) ++
    (if scores.power_score < 80 then
      ["Improve hip rotation and weight transfer"] else []) ++
    (if scores.accuracy_score < 80 then
      ["Focus on shoulder alignment and target awareness"] else [])
  let practice_drills :=
    (if scores.form_score < 80 then ["Mirror work for posture awareness"] else []) ++
    (if scores.tempo_score < 80 then ["Metronome practice with slow motion swings"] else []) ++
    (if scores.power_score < 80 then ["Medicine ball throws for power development"] else []) ++
    (if scores.accuracy_score < 80 then ["Alignment stick drills"] else [])
  let lowest_score :=
    min (min (min scores.form_score scores.tempo_score) scores.power_score)
      scores.accuracy_score
  let priority_level :=
    if lowest_score < 70 then "high"
    else if lowest_score < 80 then "medium"
    else "low"
  { strengths := if strengths = [] then ["Good overall technique"] else strengths
    areas_for_improvement := areas_for_improvement
    specific_recommendations := specific_recommendations
    practice_drills := practice_drills
    priority_level := priority_level }

/-- `_calculate_confidence` (golf_analyzer.py lines 534-545): 0.0 on an
empty confidence list, otherwise the mean of the confidence entries,
scaled to 0-100 and clamped. -/
def calculateConfidence (pd : PoseData) : ℚ :=
  if pd.confidence_scores = [] then 0
  else
    let avg := pd.confidence_scores.sum / (pd.confidence_scores.length : ℚ)
    max 0 (min 100 (avg * 100))

/-- The analysis payload assembled by `analyze_swing`
(golf_analyzer.py lines 124-141), restricted to the fields the pipeline
computes from pose data. -/
structure SwingAnalysisData where
  scores : SwingScores
  metrics : SwingMetrics
  recommendations : SwingRecommendations
  confidence_score : ℚ
  deriving Repr, DecidableEq

/-- The core of `analyze_swing` (golf_analyzer.py lines 100-148): phase
segmentation, then metrics, scores, recommendations and confidence; any
raised error aborts the whole analysis with no partial result. -/
def analyzeSwing (A : Analyzer) (pd : PoseData) : Except String SwingAnalysisData := do
  let phases ← analyzeSwingPhases pd
  let metrics := calculateSwingMetrics pd phases
  let scores := generateScores A pd metrics
  let recommendations := generateRecommendations scores metrics
  .ok { scores := scores
        metrics := metrics
        recommendations := recommendations
        confidence_score := calculateConfidence pd }

/-- The score field of the TempoAnalysis record
(app/models/analysis.py lines 61-66); the breakdown and recommendation
fields are never read by the embedded functions and are omitted. -/
structure TempoAnalysis where
  score : ℚ
  deriving Repr, DecidableEq

/-- The score field of the FormAnalysis record
(app/models/analysis.py lines 68-73); the breakdown and recommendation
fields are never read by the embedded functions and are omitted. -/
structure FormAnalysis where
  score : ℚ
  deriving Repr, DecidableEq

/-- `_calculate_overall_score` of the app-package analyzer
(app/services/golf_analyzer.py lines 168-182): a 40/60 weighted blend of
the tempo and form scores when both are present. -/
def calculateOverallScore (tempo : Option TempoAnalysis) (form : Option FormAnalysis) : ℚ :=
  match tempo, form with
  | some t, some f => t.score * 0.4 + f.score * 0.6
  | some t, none => t.score
  | none, some f => f.score
  | none, none => 0

/-- The fields of the app-package AnalysisResponse consumed by the batch
endpoint (app/models/analysis.py lines 75-88): success flag and optional
error message; a pydantic object, not a dictionary. -/
structure AnalysisResponse where
  success : Bool
  error : Option String
  deriving Repr, DecidableEq

/-- One slot of the results list built by the batch loop
(app/main.py lines 123-139): either the AnalysisResponse object returned
by analyze_swing, or the plain error dictionary appended when
analyze_swing raised. -/
inductive BatchSlot where
  | response (r : AnalysisResponse)
  | errorDict (error : String) (userId : String)
  deriving Repr, DecidableEq

/-- The expression r.get("success", False) of app/main.py line 145: on the
error dictionary it returns the stored success value False; on an
AnalysisResponse pydantic object the attribute lookup of get raises
AttributeError. -/
def slotGetSuccess : BatchSlot → Except String Bool
  | .response _ =>
      .error "AttributeError: AnalysisResponse object has no attribute get"
  | .errorDict _ _ => .ok false

/-- The JSON body returned by a successful run of the batch endpoint
(app/main.py lines 141-146). -/
structure BatchResponse where
  results : List BatchSlot
  totalProcessed : Nat
  successful : Nat
  deriving Repr, DecidableEq

/-- `analyze_batch` (app/main.py lines 104-153), modelled over the
per-item outcome of analyzer.analyze_swing (given as userId paired with
either a returned AnalysisResponse or a raised exception message): the
loop captures each item outcome in its own slot, then the summary
evaluates r.get("success", False) on every slot left to right; the first
raised AttributeError is caught by the outer handler, which turns the
whole batch into an HTTP 500 error. -/
def analyzeBatch (items : List (String × Except String AnalysisResponse)) :
    Except String BatchResponse := do
  let results := items.map (fun it =>
    match it.2 with
    | .ok r => BatchSlot.response r
    | .error e => BatchSlot.errorDict e it.1)
  let flags ← results.mapM slotGetSuccess
  .ok { results := results
        totalProcessed := items.length
        successful := (flags.filter id).length }

/-- The fixed proportional split the segmenter computes for N frames
(the record literal of golf_analyzer.py lines 251-257, in terms of N). -/
def phaseSplit (n : Nat) : SwingPhases :=
  { address := (0, n / 4)
    backswing := (n / 4, n / 2)
    downswing := (n / 2, 3 * n / 4)
    impact := (3 * n / 4, 4 * n / 5)
    follow_through := (4 * n / 5, n) }

/-- Modelled from the spec: the confidence formula the claim states,
namely the mean visibility taken over all landmarks of all frames,
multiplied by 100 and clamped to [0, 100], with exactly 0 when the input
carries no visibility data.  Stated from the words of spec section 4.4
for comparison with the code, which this file embeds separately in
calculateConfidence. -/
def claimedConfidence (det : List Frame) : ℚ :=
  let vis := (det.map (fun f => f.map Landmark.visibility)).flatten
  if vis = [] then 0
  else max 0 (min 100 (vis.sum / (vis.length : ℚ) * 100))

/-- Landmark at index k of a frame (MediaPipe right wrist is index 16);
frames produced by MediaPipe always carry 33 landmarks, so the default is
never exercised on the inputs considered. -/
def landmarkAt (f : Frame) (k : Nat) : Landmark := f.getD k ⟨0, 0, 0, 0⟩

/-- Squared 3D distance between two landmarks. -/
def distSq (a b : Landmark) : ℚ :=
  (a.x - b.x) ^ 2 + (a.y - b.y) ^ 2 + (a.z - b.z) ^ 2

/-- Modelled from the spec (section 4.1, an algorithm absent from the
source): the squared displacement speed of the dominant-hand wrist
(MediaPipe index 16) at frame i, the finite difference of position over
the inter-frame time delta.  The square keeps the value rational; the
square root is monotone, so comparisons and the argmax are unchanged. -/
def specWristSpeedSq (frames : List Frame) (ts : List ℚ) (i : Nat) : ℚ :=
  if i = 0 then 0
  else
    let dt := ts.getD i 0 - ts.getD (i - 1) 0
    if dt = 0 then 0
    else
      distSq (landmarkAt (frames.getD i []) 16) (landmarkAt (frames.getD (i - 1) []) 16)
        / dt ^ 2

/-- First index of maximal value of f over a list of candidate indices
(strict improvement only, so ties keep the earliest index). -/
def argmaxEarliest (f : Nat → ℚ) (l : List Nat) : Option Nat :=
  l.foldl (fun acc i =>
    match acc with
    | none => some i
    | some j => if f j < f i then some i else some j) none

/-- The indices of the middle 60 percent of an N-frame sequence, the
window the spec searches for the impact candidate. -/
def middleWindow (n : Nat) : List Nat :=
  (List.range n).filter (fun i => decide (n / 5 ≤ i) && decide (i < 4 * n / 5))

/-- Modelled from the spec (section 4.1, an algorithm absent from the
source): the impact candidate, the frame of maximum wrist speed magnitude
within the middle 60 percent of the sequence, ties broken by earliest
index. -/
def specImpactCandidate (frames : List Frame) (ts : List ℚ) : Option Nat :=
  argmaxEarliest (specWristSpeedSq frames ts) (middleWindow frames.length)

/-- Modelled from the spec (section 4.1): the speed signal is degenerate
when all its values over the searched window lie within a small epsilon
of one another; epsilon taken as 1/1000000. -/
def specDegenerateCheck (frames : List Frame) (ts : List ℚ) : Bool :=
  let w := middleWindow frames.length
  w.all (fun i => w.all (fun j =>
    decide (|specWristSpeedSq frames ts i - specWristSpeedSq frames ts j| ≤ 1 / 1000000)))

/-- An empty pose-data value (the metric and scoring steps never read the
pose payload, so this suffices as a concrete carrier). -/
def pdEmpty : PoseData := { landmarks := [], frame_timestamps := [], confidence_scores := [] }

/-- Eleven detected frames: a concrete input exercising the N = 11 phase
split. -/
def pd11 : PoseData :=
  { landmarks := List.replicate 11 []
    frame_timestamps := (List.range 11).map (fun i => (i : ℚ))
    confidence_scores := List.replicate 11 1 }

/-- A 40-frame pose-data input with empty frame payloads. -/
def pd40 : PoseData :=
  { landmarks := List.replicate 40 []
    frame_timestamps := (List.range 40).map (fun i => (i : ℚ))
    confidence_scores := List.replicate 40 1 }

/-- A 40-frame pose-data input with the same timestamps as pd40 but
different landmark payloads. -/
def pd40b : PoseData :=
  { landmarks := List.replicate 40 [⟨1, 2, 3, 1⟩]
    frame_timestamps := (List.range 40).map (fun i => (i : ℚ))
    confidence_scores := List.replicate 40 1 }

/-- Ten frames of 17 landmarks whose positions jump from the origin to
x = 5 between frames 2 and 3: the wrist-speed signal has a unique sharp
peak at frame 3. -/
def fr10 : List Frame :=
  List.replicate 3 (List.replicate 17 ⟨0, 0, 0, 1⟩)
    ++ List.replicate 7 (List.replicate 17 ⟨5, 0, 0, 1⟩)

/-- Unit-spaced timestamps for the ten frames of fr10. -/
def ts10 : List ℚ := (List.range 10).map (fun i => (i : ℚ))

/-- The pose data extracted from the peaked ten-frame sequence. -/
def pd10 : PoseData :=
  { landmarks := fr10, frame_timestamps := ts10, confidence_scores := List.replicate 10 1 }

/-- A ten-frame pose-data input with empty frame payloads and the same
timestamps as pd10. -/
def pd10b : PoseData :=
  { landmarks := List.replicate 10 []
    frame_timestamps := ts10
    confidence_scores := List.replicate 10 1 }

/-- A single detected frame whose landmark 0 has visibility 0 while its
other 32 landmarks have visibility 1. -/
def frC4 : List Frame :=
  [Landmark.mk 0 0 0 0 :: List.replicate 32 ⟨0, 0, 0, 1⟩]

/-- Twelve detected frames of 33 landmarks, all with visibility 0.8. -/
def det12 : List Frame :=
  List.replicate 12 (List.replicate 33 ⟨0, 0, 0, 0.8⟩)

/-- A metric set with shoulder_alignment 90, hip_rotation 75,
weight_transfer 85 and tempo_ratio 1 (form 100, tempo 70, power 70,
accuracy 85 under the rule table). -/
def mC2 : SwingMetrics :=
  { backswing_angle := 45, downswing_speed := 15, follow_through := 60
    hip_rotation := 75, shoulder_alignment := 90, weight_transfer := 85
    tempo_ratio := 1 }

/-- The form scenario of the claim: shoulder_alignment 90, hip_rotation
75, weight_transfer 85, with the placeholder values elsewhere. -/
def mFormScenario : SwingMetrics :=
  { backswing_angle := 45, downswing_speed := 15, follow_through := 60
    hip_rotation := 75, shoulder_alignment := 90, weight_transfer := 85
    tempo_ratio := 2.8 }

/-- A metric set whose tempo_ratio is exactly 4.0. -/
def mTempo4 : SwingMetrics :=
  { backswing_angle := 45, downswing_speed := 15, follow_through := 60
    hip_rotation := 75, shoulder_alignment := 68, weight_transfer := 75
    tempo_ratio := 4 }

/-- A successful AnalysisResponse as a batch item outcome. -/
def respOk : AnalysisResponse := { success := true, error := none }

/-- The batch scenario of the claim: item 2 fails with too few frames,
items 1 and 3 succeed. -/
def batchItems : List (String × Except String AnalysisResponse) :=
  [("user1", .ok respOk),
   ("user2", .error "Insufficient frames for swing analysis"),
   ("user3", .ok respOk)]

/-- A score set with every category at 70 (no category above 85). -/
def s70 : SwingScores :=
  { form_score := 70, tempo_score := 70, power_score := 70
    accuracy_score := 70, overall_score := 70 }

/-- C5: every pose-data input with fewer than 10 frames makes the
analysis fail with the insufficient-frames error; the Except value
carries no phases, metrics, scores or recommendations, so no partial
result is produced. -/
theorem insufficientFramesAborts (A : Analyzer) (pd : PoseData)
    (h : pd.landmarks.length < 10) :
    analyzeSwing A pd = .error "Insufficient frames for swing analysis" := by
  have hph : analyzeSwingPhases pd = .error "Insufficient frames for swing analysis" := by
    simp [analyzeSwingPhases, h]
  unfold analyzeSwing
  rw [hph]
  rfl

/-- Witness for C5 at a concrete nine-frame input. -/
theorem insufficientFramesAborts_witness :
    (List.replicate 9 ([] : Frame)).length < 10
    ∧ analyzeSwing noModels
        { landmarks := List.replicate 9 [], frame_timestamps := [], confidence_scores := [] }
        = .error "Insufficient frames for swing analysis" :=
  ⟨by decide,
   insufficientFramesAborts noModels
     { landmarks := List.replicate 9 [], frame_timestamps := [], confidence_scores := [] }
     (by decide)⟩

/-- C2: for every model configuration, pose data and metric set, the
overall score produced by the scoring step equals the arithmetic mean of
the four category scores it produced; and on a concrete metric set the
mean differs from the two-category 40/60 weighted blend of the
app-package module, so that blend is not the policy in use. -/
theorem overallIsMeanOfFour (A : Analyzer) (pd : PoseData) (m : SwingMetrics) :
    (generateScores A pd m).overall_score
      = ((generateScores A pd m).form_score + (generateScores A pd m).tempo_score
          + (generateScores A pd m).power_score + (generateScores A pd m).accuracy_score) / 4
    ∧ (generateScores noModels pdEmpty mC2).overall_score
        ≠ calculateOverallScore
            (some { score := (generateScores noModels pdEmpty mC2).tempo_score })
            (some { score := (generateScores noModels pdEmpty mC2).form_score }) := by
  exact ⟨rfl, by with_unfolding_all decide⟩

/-- C3 counterexample: a metric set with tempo_ratio exactly 4.0 earns
the +10 tempo bonus (score 80), refuting the claim that 4.0 falls outside
the bonus interval and earns none (score 70). -/
theorem tempoFourGetsBonus :
    ruleBasedTempoScore mTempo4 = 80 ∧ ruleBasedTempoScore mTempo4 ≠ 70 := by
  with_unfolding_all decide

/-- C3 (amended): with no model override each category score is the base
70 plus the additive bonuses of the rule table, capped at 100; the
scenario shoulder_alignment 90, hip_rotation 75, weight_transfer 85
yields form score exactly 100; and the tempo +10 bonus applies exactly
when tempo_ratio lies in the closed interval [2.0, 4.0] and outside
[2.5, 3.5], so tempo_ratio = 4.0 earns the bonus (tempo score 80). -/
theorem ruleTableScores (m : SwingMetrics) :
    (generateScores noModels pdEmpty m).form_score = ruleBasedFormScore m
    ∧ (generateScores noModels pdEmpty m).tempo_score = ruleBasedTempoScore m
    ∧ (generateScores noModels pdEmpty m).power_score = ruleBasedPowerScore m
    ∧ (generateScores noModels pdEmpty m).accuracy_score = ruleBasedAccuracyScore m
    ∧ ruleBasedFormScore m
        = min 100 (70 + (if m.shoulder_alignment > 80 then (10 : ℚ) else 0)
            + (if m.hip_rotation > 70 then (10 : ℚ) else 0)
            + (if m.weight_transfer > 80 then (10 : ℚ) else 0))
    ∧ ruleBasedTempoScore m
        = (if 2.5 ≤ m.tempo_ratio ∧ m.tempo_ratio ≤ 3.5 then (90 : ℚ)
           else if 2.0 ≤ m.tempo_ratio ∧ m.tempo_ratio ≤ 4.0 then 80 else 70)
    ∧ ruleBasedPowerScore m
        = min 100 (70 + (if m.downswing_speed > 20 then (15 : ℚ) else 0)
            + (if m.hip_rotation > 80 then (15 : ℚ) else 0))
    ∧ ruleBasedAccuracyScore m
        = min 100 (70 + (if m.shoulder_alignment > 85 then (15 : ℚ) else 0)
            + (if m.weight_transfer > 85 then (15 : ℚ) else 0))
    ∧ ruleBasedFormScore mFormScenario = 100
    ∧ ruleBasedTempoScore mTempo4 = 80 := by
  refine ⟨rfl, rfl, rfl, rfl, ?_, ?_, ?_, ?_,
    by with_unfolding_all decide, by with_unfolding_all decide⟩
  · unfold ruleBasedFormScore
    split_ifs <;> norm_num
  · unfold ruleBasedTempoScore
    split_ifs <;> norm_num
  · unfold ruleBasedPowerScore
    split_ifs <;> norm_num
  · unfold ruleBasedAccuracyScore
    split_ifs <;> norm_num

/-- C7: for every pose data and phase record, each field of the metric
set lies in its documented range (angles in [0, 180], shoulder_alignment
and weight_transfer in [0, 100], tempo_ratio in [0.5, 5.0]); and the
tempo clamp applied by the tempo computation reports a raw value of 6.0
as exactly 5.0. -/
theorem metricsWithinRanges (pd : PoseData) (ph : SwingPhases) :
    (0 ≤ (calculateSwingMetrics pd ph).backswing_angle
      ∧ (calculateSwingMetrics pd ph).backswing_angle ≤ 180)
    ∧ (0 ≤ (calculateSwingMetrics pd ph).follow_through
      ∧ (calculateSwingMetrics pd ph).follow_through ≤ 180)
    ∧ (0 ≤ (calculateSwingMetrics pd ph).hip_rotation
      ∧ (calculateSwingMetrics pd ph).hip_rotation ≤ 180)
    ∧ (0 ≤ (calculateSwingMetrics pd ph).shoulder_alignment
      ∧ (calculateSwingMetrics pd ph).shoulder_alignment ≤ 100)
    ∧ (0 ≤ (calculateSwingMetrics pd ph).weight_transfer
      ∧ (calculateSwingMetrics pd ph).weight_transfer ≤ 100)
    ∧ (1/2 ≤ (calculateSwingMetrics pd ph).tempo_ratio
      ∧ (calculateSwingMetrics pd ph).tempo_ratio ≤ 5)
    ∧ tempoClamp 6 = 5 := by
  simp only [calculateSwingMetrics, calculateBackswingAngle, calculateFollowThrough,
    calculateHipRotation, calculateShoulderAlignment, calculateWeightTransfer,
    calculateTempoRatio, tempoClamp]
  split_ifs <;> norm_num [min_def, max_def]

/-- C6: evaluating the batch endpoint at the claimed scenario (items 1
and 3 return successful AnalysisResponse objects, item 2 raises an
insufficient-frames error) does not yield a three-slot result list with
successful count 2: the summary expression r.get evaluated on a returned
AnalysisResponse object raises AttributeError, which the outer handler
turns into an error for the whole batch. -/
theorem batchAbortsOnSuccessCount :
    analyzeBatch batchItems
      = .error "AttributeError: AnalysisResponse object has no attribute get" := by
  rfl

/-- C1 counterexample: the 11-frame input satisfies N ≥ 10, yet the
segmentation returns impact range [8, 8), which is empty, refuting the
claim that all five ranges are non-empty whenever N ≥ 10. -/
theorem impactRangeEmptyAtEleven :
    10 ≤ pd11.landmarks.length
    ∧ analyzeSwingPhases pd11 = .ok (phaseSplit 11)
    ∧ (phaseSplit 11).impact = (8, 8)
    ∧ rangeLen (phaseSplit 11).impact = 0 := by
  refine ⟨by decide, by rfl, by decide, by decide⟩

/-- C1 (amended): for every input with N ≥ 10 frames the five ranges are
contiguous, ordered, non-overlapping, and together exactly partition
[0, N); address, backswing, downswing and follow_through are always
non-empty, but the impact range is empty exactly when
3N div 4 = 4N div 5, which for N ≥ 10 happens precisely at
N = 11, 12 and 16; for every other N ≥ 10 all five ranges are
non-empty. -/
theorem phasesPartition (pd : PoseData) (h : 10 ≤ pd.landmarks.length) :
    analyzeSwingPhases pd = .ok (phaseSplit pd.landmarks.length)
    ∧ (phaseSplit pd.landmarks.length).address.1 = 0
    ∧ (phaseSplit pd.landmarks.length).address.2
        = (phaseSplit pd.landmarks.length).backswing.1
    ∧ (phaseSplit pd.landmarks.length).backswing.2
        = (phaseSplit pd.landmarks.length).downswing.1
    ∧ (phaseSplit pd.landmarks.length).downswing.2
        = (phaseSplit pd.landmarks.length).impact.1
    ∧ (phaseSplit pd.landmarks.length).impact.2
        = (phaseSplit pd.landmarks.length).follow_through.1
    ∧ (phaseSplit pd.landmarks.length).follow_through.2 = pd.landmarks.length
    ∧ 0 < rangeLen (phaseSplit pd.landmarks.length).address
    ∧ 0 < rangeLen (phaseSplit pd.landmarks.length).backswing
    ∧ 0 < rangeLen (phaseSplit pd.landmarks.length).downswing
    ∧ 0 < rangeLen (phaseSplit pd.landmarks.length).follow_through
    ∧ (∀ i : Nat, i < pd.landmarks.length ↔
         (inRange i (phaseSplit pd.landmarks.length).address
          ∨ inRange i (phaseSplit pd.landmarks.length).backswing
          ∨ inRange i (phaseSplit pd.landmarks.length).downswing
          ∨ inRange i (phaseSplit pd.landmarks.length).impact
          ∨ inRange i (phaseSplit pd.landmarks.length).follow_through))
    ∧ (∀ i : Nat,
         ¬(inRange i (phaseSplit pd.landmarks.length).address
            ∧ inRange i (phaseSplit pd.landmarks.length).backswing)
         ∧ ¬(inRange i (phaseSplit pd.landmarks.length).address
            ∧ inRange i (phaseSplit pd.landmarks.length).downswing)
         ∧ ¬(inRange i (phaseSplit pd.landmarks.length).address
            ∧ inRange i (phaseSplit pd.landmarks.length).impact)
         ∧ ¬(inRange i (phaseSplit pd.landmarks.length).address
            ∧ inRange i (phaseSplit pd.landmarks.length).follow_through)
         ∧ ¬(inRange i (phaseSplit pd.landmarks.length).backswing
            ∧ inRange i (phaseSplit pd.landmarks.length).downswing)
         ∧ ¬(inRange i (phaseSplit pd.landmarks.length).backswing
            ∧ inRange i (phaseSplit pd.landmarks.length).impact)
         ∧ ¬(inRange i (phaseSplit pd.landmarks.length).backswing
            ∧ inRange i (phaseSplit pd.landmarks.length).follow_through)
         ∧ ¬(inRange i (phaseSplit pd.landmarks.length).downswing
            ∧ inRange i (phaseSplit pd.landmarks.length).impact)
         ∧ ¬(inRange i (phaseSplit pd.landmarks.length).downswing
            ∧ inRange i (phaseSplit pd.landmarks.length).follow_through)
         ∧ ¬(inRange i (phaseSplit pd.landmarks.length).impact
            ∧ inRange i (phaseSplit pd.landmarks.length).follow_through))
    ∧ (rangeLen (phaseSplit pd.landmarks.length).impact = 0
        ↔ 3 * pd.landmarks.length / 4 = 4 * pd.landmarks.length / 5)
    ∧ (rangeLen (phaseSplit pd.landmarks.length).impact = 0
        ↔ (pd.landmarks.length = 11 ∨ pd.landmarks.length = 12
            ∨ pd.landmarks.length = 16)) := by
  have hok : analyzeSwingPhases pd = .ok (phaseSplit pd.landmarks.length) := by
    simp only [analyzeSwingPhases, phaseSplit]
    rw [if_neg (by omega)]
  have hchar : rangeLen (phaseSplit pd.landmarks.length).impact = 0
      ↔ (pd.landmarks.length = 11 ∨ pd.landmarks.length = 12
          ∨ pd.landmarks.length = 16) := by
    simp only [phaseSplit, rangeLen]
    set n := pd.landmarks.length with hn
    rcases Nat.lt_or_ge n 17 with hlt | hge
    · interval_cases n <;> simp
    · have h17 : 3 * n / 4 < 4 * n / 5 := by omega
      omega
  refine ⟨hok, ?_, ?_, ?_, ?_, ?_, ?_, ?_, ?_, ?_, ?_, ?_, ?_, ?_, hchar⟩ <;>
    simp only [phaseSplit, rangeLen, inRange] <;> omega

/-- Witness for C1 (amended) at a concrete 40-frame input. -/
theorem phasesPartition_witness :
    10 ≤ pd40.landmarks.length
    ∧ analyzeSwingPhases pd40 = .ok (phaseSplit pd40.landmarks.length) :=
  ⟨by decide, (phasesPartition pd40 (by decide)).1⟩

/-- C4 counterexample: one detected frame whose landmark 0 has
visibility 0 while its other 32 landmarks have visibility 1.  The mean
over all 33 landmarks would give 3200/33 (about 97), but the pipeline
returns confidence 0, because extraction keeps only the visibility of
landmark 0 of each frame. -/
theorem confidenceNotAllLandmarks :
    calculateConfidence (extractPoseData frC4 30) = 0
    ∧ claimedConfidence frC4 = 3200 / 33
    ∧ calculateConfidence (extractPoseData frC4 30) ≠ claimedConfidence frC4 := by
  have h0 : calculateConfidence (extractPoseData frC4 30) = 0 := by
    simp [calculateConfidence, extractPoseData, frC4, firstVisibility]
  have h1 : claimedConfidence frC4 = 3200 / 33 := by
    simp only [claimedConfidence, frC4, List.map_cons, List.map_nil, List.map_replicate,
      List.flatten_cons, List.flatten_nil, List.append_nil]
    norm_num [List.sum_replicate, min_def, max_def]
    all_goals simp
  refine ⟨h0, h1, ?_⟩
  rw [h0, h1]
  norm_num

/-- C4 (amended): the confidence equals the mean visibility of the first
landmark (index 0) over all detected frames, times 100, clamped to
[0, 100]; it is exactly 0 when no frame was detected; the function is
total, so it never fails; and uniform visibility 0.8 across 12 frames
still yields exactly 80. -/
theorem confidenceFirstLandmarkMean (det : List Frame) (fps : ℚ) (h : det ≠ []) :
    calculateConfidence (extractPoseData det fps)
      = max 0 (min 100 ((det.map firstVisibility).sum / (det.length : ℚ) * 100))
    ∧ calculateConfidence (extractPoseData [] fps) = 0
    ∧ calculateConfidence (extractPoseData det12 30) = 80 := by
  have h80 : calculateConfidence (extractPoseData det12 30) = 80 := by
    have hfv : firstVisibility (List.replicate 33 (⟨0, 0, 0, 0.8⟩ : Landmark)) = 0.8 := rfl
    simp only [calculateConfidence, extractPoseData, det12, List.map_replicate, hfv]
    norm_num [List.sum_replicate, min_def, max_def]
  refine ⟨?_, by rfl, h80⟩
  unfold calculateConfidence extractPoseData
  simp [List.map_eq_nil_iff, h]

/-- Witness for C4 (amended) at the concrete uniform-0.8 input. -/
theorem confidenceFirstLandmarkMean_witness :
    det12 ≠ []
    ∧ calculateConfidence (extractPoseData det12 30)
        = max 0 (min 100 ((det12.map firstVisibility).sum / (det12.length : ℚ) * 100)) :=
  ⟨by simp [det12], (confidenceFirstLandmarkMean det12 30 (by simp [det12])).1⟩

/-- C8 counterexample: a ten-frame input whose wrist-speed signal has a
unique sharp peak at frame 3 (inside the middle 60 percent window, and
far from degenerate): the claim places the impact phase at frame 3, but
the code returns the fixed proportional split, whose impact range [7, 8)
does not contain frame 3. -/
theorem impactIgnoresSpeedPeak :
    specImpactCandidate fr10 ts10 = some 3
    ∧ specDegenerateCheck fr10 ts10 = false
    ∧ analyzeSwingPhases pd10 = .ok (phaseSplit 10)
    ∧ (phaseSplit 10).impact = (7, 8)
    ∧ ¬ inRange 3 (phaseSplit 10).impact := by
  refine ⟨?_, ?_, by rfl, by decide, by decide⟩
  · with_unfolding_all decide
  · with_unfolding_all decide

/-- C8 (amended): the segmentation never inspects the wrist-speed signal:
every input with N ≥ 10 frames gets the fixed proportional split
(address 0-25 percent, backswing 25-50, downswing 50-75, impact 75-80,
follow_through 80-100), and two inputs with the same frame count get the
same phases regardless of landmark content. -/
theorem phasesAlwaysFixedSplit (pd pd' : PoseData)
    (hlen : pd'.landmarks.length = pd.landmarks.length)
    (h : 10 ≤ pd.landmarks.length) :
    analyzeSwingPhases pd = .ok (phaseSplit pd.landmarks.length)
    ∧ analyzeSwingPhases pd' = analyzeSwingPhases pd := by
  have h1 : analyzeSwingPhases pd = .ok (phaseSplit pd.landmarks.length) := by
    simp only [analyzeSwingPhases, phaseSplit]
    rw [if_neg (by omega)]
  have h2 : analyzeSwingPhases pd' = .ok (phaseSplit pd'.landmarks.length) := by
    simp only [analyzeSwingPhases, phaseSplit]
    rw [if_neg (by omega)]
  refine ⟨h1, ?_⟩
  rw [h1, h2, hlen]

/-- Witness for C8 (amended) at two concrete ten-frame inputs with
different landmark payloads. -/
theorem phasesAlwaysFixedSplit_witness :
    pd10b.landmarks.length = pd10.landmarks.length
    ∧ 10 ≤ pd10.landmarks.length
    ∧ analyzeSwingPhases pd10 = .ok (phaseSplit pd10.landmarks.length) :=
  ⟨by decide, by decide, (phasesAlwaysFixedSplit pd10 pd10b (by decide) (by decide)).1⟩

/-- C9: the recommendation step appends one strength string per category
with score above 85 in the fixed order form, tempo, power, accuracy; one
improvement-area, one specific-recommendation and one practice-drill
string per category with score below 80 in the same order; substitutes
the single generic strength when no strength was produced; and sets
priority_level to high when the minimum category score is below 70, to
medium when it is below 80, and to low otherwise. -/
theorem recommendationsSpec (s : SwingScores) (m : SwingMetrics) :
    (generateRecommendations s m).areas_for_improvement
      = (if s.form_score < 80 then ["Form consistency"] else []) ++
        (if s.tempo_score < 80 then ["Tempo control"] else []) ++
        (if s.power_score < 80 then ["Power generation"] else []) ++
        (if s.accuracy_score < 80 then ["Accuracy and consistency"] else [])
    ∧ (generateRecommendations s m).areas_for_improvement.length
        = List.countP (fun c => decide (c < 80))
            [s.form_score, s.tempo_score, s.power_score, s.accuracy_score]
    ∧ (generateRecommendations s m).specific_recommendations.length
        = List.countP (fun c => decide (c < 80))
            [s.form_score, s.tempo_score, s.power_score, s.accuracy_score]
    ∧ (generateRecommendations s m).practice_drills.length
        = List.countP (fun c => decide (c < 80))
            [s.form_score, s.tempo_score, s.power_score, s.accuracy_score]
    ∧ (generateRecommendations s m).strengths.length
        = max 1 (List.countP (fun c => decide (85 < c))
            [s.form_score, s.tempo_score, s.power_score, s.accuracy_score])
    ∧ (List.countP (fun c => decide (85 < c))
          [s.form_score, s.tempo_score, s.power_score, s.accuracy_score] = 0 →
        (generateRecommendations s m).strengths = ["Good overall technique"])
    ∧ (generateRecommendations s m).priority_level
        = (if min (min (min s.form_score s.tempo_score) s.power_score) s.accuracy_score < 70
           then "high"
           else if min (min (min s.form_score s.tempo_score) s.power_score) s.accuracy_score < 80
           then "medium"
           else "low") := by
  refine ⟨rfl, ?_, ?_, ?_, ?_, ?_, rfl⟩
  · simp only [generateRecommendations]
    split_ifs <;> simp_all [List.countP_cons, List.countP_nil]
  · simp only [generateRecommendations]
    split_ifs <;> simp_all [List.countP_cons, List.countP_nil]
  · simp only [generateRecommendations]
    split_ifs <;> simp_all [List.countP_cons, List.countP_nil]
  · simp only [generateRecommendations]
    split_ifs <;> simp_all [List.countP_cons, List.countP_nil]
  · intro hc
    simp only [generateRecommendations]
    split_ifs <;> simp_all [List.countP_cons, List.countP_nil]

/-- Witness for C9 at a concrete score set with every category at 70:
no strength is produced, so the generic strength is substituted. -/
theorem recommendationsSpec_witness :
    (generateRecommendations s70 mFormScenario).strengths = ["Good overall technique"] :=
  (recommendationsSpec s70 mFormScenario).2.2.2.2.2.1
    (by norm_num [s70, List.countP_cons, List.countP_nil])

/-- C10: the metric extraction step never reads landmark coordinates or
visibilities: two pose-data inputs with the same number N ≥ 10 of frames
and the same timestamps produce identical metric sets, and (with the
timestamps list filled in lockstep with the frames, as extraction does)
the metrics are exactly the fixed constants backswing_angle 45,
downswing_speed 15, follow_through 60, hip_rotation 75,
shoulder_alignment 68, weight_transfer 75, tempo_ratio 2.8. -/
theorem metricsIgnoreLandmarks (pd1 pd2 : PoseData)
    (hn : pd2.landmarks.length = pd1.landmarks.length)
    (hts : pd2.frame_timestamps = pd1.frame_timestamps)
    (h : 10 ≤ pd1.landmarks.length) :
    analyzeSwingPhases pd1 = .ok (phaseSplit pd1.landmarks.length)
    ∧ analyzeSwingPhases pd2 = .ok (phaseSplit pd2.landmarks.length)
    ∧ calculateSwingMetrics pd1 (phaseSplit pd1.landmarks.length)
        = calculateSwingMetrics pd2 (phaseSplit pd2.landmarks.length)
    ∧ (pd1.frame_timestamps.length = pd1.landmarks.length →
        calculateSwingMetrics pd1 (phaseSplit pd1.landmarks.length)
          = { backswing_angle := 45, downswing_speed := 15, follow_through := 60
              hip_rotation := 75, shoulder_alignment := 68, weight_transfer := 75
              tempo_ratio := 2.8 }) := by
  have hph1 : analyzeSwingPhases pd1 = .ok (phaseSplit pd1.landmarks.length) := by
    simp only [analyzeSwingPhases, phaseSplit]
    rw [if_neg (by omega)]
  have hph2 : analyzeSwingPhases pd2 = .ok (phaseSplit pd2.landmarks.length) := by
    simp only [analyzeSwingPhases, phaseSplit]
    rw [if_neg (by omega)]
  have heq : calculateSwingMetrics pd1 (phaseSplit pd1.landmarks.length)
      = calculateSwingMetrics pd2 (phaseSplit pd2.landmarks.length) := by
    rw [hn]
    simp only [calculateSwingMetrics, SwingMetrics.mk.injEq]
    refine ⟨rfl, rfl, rfl, rfl, rfl, rfl, ?_⟩
    rw [hts]
  refine ⟨hph1, hph2, heq, ?_⟩
  intro hlock
  simp only [calculateSwingMetrics, phaseSplit, calculateBackswingAngle,
    calculateDownswingSpeed, calculateFollowThrough, calculateHipRotation,
    calculateShoulderAlignment, calculateWeightTransfer, calculateTempoRatio,
    tempoClamp, rangeLen, SwingMetrics.mk.injEq]
  refine ⟨?_, ?_, ?_, ?_, ?_, ?_, ?_⟩
  · rw [if_neg (by omega)]
    norm_num [min_def, max_def]
  · rw [if_neg (by omega)]
    norm_num [max_def]
  · rw [if_neg (by omega)]
    norm_num [min_def, max_def]
  · rw [if_neg (by omega)]
    norm_num [min_def, max_def]
  · rw [if_neg (by omega)]
    norm_num [min_def, max_def]
  · norm_num [min_def, max_def]
  · rw [if_neg (by omega)]
    norm_num [min_def, max_def]

/-- Witness for C10 at two concrete 40-frame inputs with different
landmark payloads and equal timestamps. -/
theorem metricsIgnoreLandmarks_witness :
    pd40b.landmarks.length = pd40.landmarks.length
    ∧ 10 ≤ pd40.landmarks.length
    ∧ pd40.frame_timestamps.length = pd40.landmarks.length
    ∧ calculateSwingMetrics pd40 (phaseSplit pd40.landmarks.length)
        = { backswing_angle := 45, downswing_speed := 15, follow_through := 60
            hip_rotation := 75, shoulder_alignment := 68, weight_transfer := 75
            tempo_ratio := 2.8 } :=
  ⟨by decide, by decide, by decide,
   (metricsIgnoreLandmarks pd40 pd40b (by decide) rfl (by decide)).2.2.2 (by decide)⟩

end SwingAI
